import Mathlib

/-!
Verification development for the modelpilot-js client library.

Shallow embedding of:
  * `src/utils.js`  — `validateConfig`, `validateMessages`, `validateFunctions`,
    `validateTools`, `extractStreamingText`
  * `src/chat.js`   — `ChatCompletions.create`, `_buildOptionalParams`,
    `ChatCompletionStream` (the SSE decoder and its `getText` reduction)
  * `src/index.js`  — `ModelPilot` constructor, `_handleError`, `request` (retry loop)
  * `src/errors.js` — the error class hierarchy

Strings that the decoder manipulates are embedded as `List Char` (`JStr`);
JavaScript numbers appearing in validated parameters are embedded as `Rat`.
Real-time artifacts (the `created` timestamp stamped on each streaming chunk,
and the backoff sleeps between retries) are outside the embedding; chunks are
modelled without the timestamp field and the retry loop without the sleeps.
-/

namespace MP

/-- Character strings, as the decoder sees them (JS strings, char by char). -/
abbrev JStr := List Char

/-- JSON values as produced by `JSON.parse`.  Numbers keep their raw lexeme:
no claim inspects a numeric value, only (at most) its truthiness. -/
inductive Json where
  | null
  | bool (b : Bool)
  | num (raw : JStr)
  | str (s : JStr)
  | arr (elems : List Json)
  | obj (fields : List (JStr × Json))
deriving Repr

/-- The opening brace character (written via its code point). -/
def lbrace : Char := Char.ofNat 123

/-- The closing brace character (written via its code point). -/
def rbrace : Char := Char.ofNat 125

/-- JSON insignificant whitespace (RFC 8259: space, tab, line feed, carriage return). -/
def isJsonWs (c : Char) : Bool :=
  c = ' ' || c = '\t' || c = '\n' || c = '\r'

/-- Skip insignificant JSON whitespace. -/
def skipWs (s : JStr) : JStr := s.dropWhile isJsonWs

/-- Value of one hex digit, for `\uXXXX` escapes. -/
def hexVal (c : Char) : Option Nat :=
  if '0' ≤ c ∧ c ≤ '9' then some (c.toNat - '0'.toNat)
  else if 'a' ≤ c ∧ c ≤ 'f' then some (c.toNat - 'a'.toNat + 10)
  else if 'A' ≤ c ∧ c ≤ 'F' then some (c.toNat - 'A'.toNat + 10)
  else none

/-- Simple string escapes of JSON. -/
def escChar (c : Char) : Option Char :=
  if c = '"' then some '"'
  else if c = '\\' then some '\\'
  else if c = '/' then some '/'
  else if c = 'b' then some (Char.ofNat 8)
  else if c = 'f' then some (Char.ofNat 12)
  else if c = 'n' then some '\n'
  else if c = 'r' then some '\r'
  else if c = 't' then some '\t'
  else none

/-- Parse the body of a JSON string after the opening quote.  Returns the
decoded content and the input remaining after the closing quote. -/
def parseStringBody : Nat → JStr → Option (JStr × JStr)
  | 0, _ => none
  | _, [] => none
  | fuel + 1, c :: cs =>
    if c = '"' then some ([], cs)
    else if c = '\\' then
      match cs with
      | [] => none
      | e :: cs2 =>
        if e = 'u' then
          match cs2 with
          | h1 :: h2 :: h3 :: h4 :: cs3 =>
            match hexVal h1, hexVal h2, hexVal h3, hexVal h4 with
            | some a, some b, some c2, some d =>
              (parseStringBody fuel cs3).map
                (fun r => (Char.ofNat (((a * 16 + b) * 16 + c2) * 16 + d) :: r.1, r.2))
            | _, _, _, _ => none
          | _ => none
        else
          match escChar e with
          | some ec => (parseStringBody fuel cs2).map (fun r => (ec :: r.1, r.2))
          | none => none
    else if c.toNat < 32 then none
    else (parseStringBody fuel cs).map (fun r => (c :: r.1, r.2))

/-- Parse a JSON number lexeme `-?(0|[1-9][0-9]*)(.[0-9]+)?([eE][+-]?[0-9]+)?`,
returning the raw lexeme and the remaining input. -/
def parseNumber (s : JStr) : Option (JStr × JStr) :=
  let (sign, s1) :=
    match s with
    | '-' :: r => (['-'], r)
    | _ => (([] : JStr), s)
  match s1 with
  | [] => none
  | d :: _ =>
    if !d.isDigit then none
    else
      let intPart := s1.takeWhile Char.isDigit
      let s2 := s1.dropWhile Char.isDigit
      if d = '0' ∧ intPart.length > 1 then none
      else
        let (fracPart, s3) :=
          match s2 with
          | '.' :: r =>
            let ds := r.takeWhile Char.isDigit
            if ds = [] then (none, s2) else (some ('.' :: ds), r.dropWhile Char.isDigit)
          | _ => (none, s2)
        match fracPart, s2 with
        | none, '.' :: _ => none
        | _, _ =>
          let (expPart, s4) :=
            match s3 with
            | e :: r =>
              if e = 'e' ∨ e = 'E' then
                let (es, r2) :=
                  match r with
                  | p :: r2 => if p = '+' ∨ p = '-' then ([e, p], r2) else ([e], r)
                  | [] => ([e], r)
                let ds := r2.takeWhile Char.isDigit
                if ds = [] then (none, s3) else (some (es ++ ds), r2.dropWhile Char.isDigit)
              else (none, s3)
            | [] => (none, s3)
          match expPart, s3 with
          | none, e :: _ =>
            if e = 'e' ∨ e = 'E' then none
            else some (sign ++ intPart ++ (fracPart.getD []) ++ [], s3)
          | _, _ =>
            some (sign ++ intPart ++ (fracPart.getD []) ++ (expPart.getD []), s4)

/-- Check that the input starts with the given literal and return the rest. -/
def expectLit (lit : JStr) (s : JStr) : Option JStr :=
  if s.take lit.length = lit then some (s.drop lit.length) else none

mutual

/-- Parse one JSON value (fuel-indexed recursive descent). -/
def parseValue : Nat → JStr → Option (Json × JStr)
  | 0, _ => none
  | fuel + 1, s0 =>
    let s := skipWs s0
    match s with
    | [] => none
    | c :: cs =>
      if c = '"' then
        (parseStringBody (cs.length + 1) cs).map (fun r => (Json.str r.1, r.2))
      else if c = lbrace then
        let s2 := skipWs cs
        match s2 with
        | c2 :: cs2 => if c2 = rbrace then some (Json.obj [], cs2) else parseMembers fuel s2 []
        | [] => none
      else if c = '[' then
        let s2 := skipWs cs
        match s2 with
        | c2 :: cs2 => if c2 = ']' then some (Json.arr [], cs2) else parseElems fuel s2 []
        | [] => none
      else if c = 't' then
        (expectLit ['t', 'r', 'u', 'e'] s).map (fun r => (Json.bool true, r))
      else if c = 'f' then
        (expectLit ['f', 'a', 'l', 's', 'e'] s).map (fun r => (Json.bool false, r))
      else if c = 'n' then
        (expectLit ['n', 'u', 'l', 'l'] s).map (fun r => (Json.null, r))
      else
        (parseNumber s).map (fun r => (Json.num r.1, r.2))

/-- Parse the members of a JSON object (positioned at a key, after `{` or `,`). -/
def parseMembers : Nat → JStr → List (JStr × Json) → Option (Json × JStr)
  | 0, _, _ => none
  | fuel + 1, s, acc =>
    match skipWs s with
    | '"' :: cs =>
      match parseStringBody (cs.length + 1) cs with
      | none => none
      | some (key, r1) =>
        match skipWs r1 with
        | ':' :: r2 =>
          match parseValue fuel r2 with
          | none => none
          | some (v, r3) =>
            match skipWs r3 with
            | ',' :: r4 => parseMembers fuel r4 (acc ++ [(key, v)])
            | c :: r4 =>
              if c = rbrace then some (Json.obj (acc ++ [(key, v)]), r4) else none
            | [] => none
        | _ => none
    | _ => none

/-- Parse the elements of a JSON array (positioned at a value, after `[` or `,`). -/
def parseElems : Nat → JStr → List Json → Option (Json × JStr)
  | 0, _, _ => none
  | fuel + 1, s, acc =>
    match parseValue fuel s with
    | none => none
    | some (v, r1) =>
      match skipWs r1 with
      | ',' :: r2 => parseElems fuel r2 (acc ++ [v])
      | ']' :: r2 => some (Json.arr (acc ++ [v]), r2)
      | _ => none

end

/-- `JSON.parse`: parse a complete JSON text; trailing garbage is an error. -/
def parseJson (s : JStr) : Option Json :=
  match parseValue (s.length + 1) s with
  | some (v, rest) => if skipWs rest = [] then some v else none
  | none => none

/-! ## JavaScript string and value helpers used by the decoder -/

/-- Whitespace recognised by JS `String.prototype.trim` (ASCII part plus
no-break space and BOM, the only code points the embedded inputs can contain). -/
def jsWsChar (c : Char) : Bool :=
  c = ' ' || c = '\t' || c = '\n' || c = '\r' ||
  c = Char.ofNat 11 || c = Char.ofNat 12 || c = Char.ofNat 160 || c = Char.ofNat 65279

/-- JS `s.trim()`. -/
def jsTrim (s : JStr) : JStr :=
  ((s.dropWhile jsWsChar).reverse.dropWhile jsWsChar).reverse

/-- JS truthiness of a parsed JSON value (objects and arrays are always truthy,
`""`, `0`, `false` and `null` are falsy).  A numeric lexeme denotes zero exactly
when its mantissa digits are all `0` (the exponent cannot change zeroness). -/
def jsTruthy : Json → Bool
  | .null => false
  | .bool b => b
  | .str s => s ≠ []
  | .num raw =>
    ¬ (raw.takeWhile (fun c => c ≠ 'e' ∧ c ≠ 'E')).all (fun c => c = '0' ∨ c = '.' ∨ c = '-')
  | .arr _ => true
  | .obj _ => true

/-- JS property access `v.key`: `none` plays the role of `undefined` (property
access that would throw on `null`/`undefined` is also `none`, observationally
identical here because `extractStreamingText` catches every exception). -/
def jsGet (v : Json) (key : JStr) : Option Json :=
  match v with
  | .obj fields => (fields.find? (fun f => f.1 = key)).map (·.2)
  | _ => none

/-- JS indexing `v[0]` (arrays by position, objects by the coerced key `"0"`,
strings by character). -/
def jsIndex0 (v : Json) : Option Json :=
  match v with
  | .arr (x :: _) => some x
  | .obj fields => (fields.find? (fun f => f.1 = ['0'])).map (·.2)
  | .str (c :: _) => some (Json.str [c])
  | _ => none

/-- Truthiness of a possibly-`undefined` value. -/
def truthyOpt (o : Option Json) : Bool :=
  match o with
  | some v => jsTruthy v
  | none => false

/-! ## `extractStreamingText` (src/utils.js) -/

/-- The `data: ` SSE prefix. -/
def dataTag : JStr := "data: ".toList

/-- `chunk.replace(/^data: /,'')`: drop one leading `data: `. -/
def dropDataTag (line : JStr) : JStr :=
  if line.take 6 = dataTag then line.drop 6 else line

/-- The `[DONE]` sentinel. -/
def doneTag : JStr := "[DONE]".toList

/-- `extractStreamingText` from src/utils.js: strip the `data: ` tag, skip
blank lines and the `[DONE]` sentinel, parse the JSON and extract
`choices[0].delta.content` (falling back to `choices[0].message.content`),
returning `none` on malformed JSON (the catch-all `try`). -/
def extractStreamingText (chunk : JStr) : Option Json :=
  let cleanChunk := dropDataTag chunk
  if jsTrim cleanChunk = [] then none
  else if jsTrim cleanChunk = doneTag then none
  else
    match parseJson cleanChunk with
    | none => none
    | some parsed =>
      if truthyOpt (jsGet parsed ("choices".toList)) ∧
          truthyOpt ((jsGet parsed ("choices".toList)).bind jsIndex0) then
        match (jsGet parsed ("choices".toList)).bind jsIndex0 with
        | none => none
        | some choice =>
          if truthyOpt (jsGet choice ("delta".toList)) ∧
              truthyOpt ((jsGet choice ("delta".toList)).bind (jsGet · ("content".toList))) then
            (jsGet choice ("delta".toList)).bind (jsGet · ("content".toList))
          else if truthyOpt (jsGet choice ("message".toList)) ∧
              truthyOpt ((jsGet choice ("message".toList)).bind (jsGet · ("content".toList))) then
            (jsGet choice ("message".toList)).bind (jsGet · ("content".toList))
          else none
      else none

/-! ## The stream decoder (`ChatCompletionStream`, src/chat.js) -/

/-- JS `buffer.split('\n')` presented as (complete lines, retained fragment):
the retained fragment is the `lines.pop()||''` of the source. -/
def splitLines : JStr → List JStr × JStr
  | [] => ([], [])
  | c :: cs =>
    let r := splitLines cs
    if c = '\n' then ([] :: r.1, r.2)
    else
      match r with
      | (l :: ls, rest) => ((c :: l) :: ls, rest)
      | ([], rest) => ([], c :: rest)

/-- Processing of one complete line inside the iterator loop:
`if(line.trim()) { const text=extractStreamingText(line); if(text!==null) yield … }`.
The final retained buffer is processed by exactly the same code path. -/
def processLine (line : JStr) : Option Json :=
  if jsTrim line = [] then none else extractStreamingText line

/-- One turn of the `for await` loop: append the incoming chunk to the buffer,
split on newline, keep the last fragment, process all complete lines. -/
def decodeStep (st : JStr × List Json) (chunk : JStr) : JStr × List Json :=
  let r := splitLines (st.1 ++ chunk)
  (r.2, st.2 ++ r.1.filterMap processLine)

/-- All delta-content values yielded for a given chunked input: run the loop
over every chunk, then process the remaining buffer. -/
def decodeTexts (chunks : List JStr) : List Json :=
  let st := chunks.foldl decodeStep ([], [])
  st.2 ++ (processLine st.1).toList

/-- One yielded streaming chunk.  `deltaContent = none` encodes the empty
delta `{}` of the terminal chunk.  The `created` timestamp is not modelled. -/
structure StreamChunk where
  deltaContent : Option Json
  index : Nat
  finishReason : Option JStr
  model : JStr
  object : JStr
deriving Repr

/-- A content chunk as yielded inside the loop. -/
def mkContentChunk (t : Json) : StreamChunk :=
  { deltaContent := some t
    index := 0
    finishReason := none
    model := "modelpilot-routed".toList
    object := "chat.completion.chunk".toList }

/-- The synthetic terminal chunk yielded after the source is exhausted. -/
def terminalChunk : StreamChunk :=
  { deltaContent := none
    index := 0
    finishReason := some ("stop".toList)
    model := "modelpilot-routed".toList
    object := "chat.completion.chunk".toList }

/-- The full sequence of chunks produced by the async iterator for a given
sequence of incoming network chunks. -/
def decodeChunks (chunks : List JStr) : List StreamChunk :=
  (decodeTexts chunks).map mkContentChunk ++ [terminalChunk]

/-- String coercion used when `getText` appends a content value; every claim
only ever concatenates string contents, where this is JS-exact. -/
def jsToString : Json → JStr
  | .null => "null".toList
  | .bool true => "true".toList
  | .bool false => "false".toList
  | .num raw => raw
  | .str s => s
  | .arr _ => []
  | .obj _ => []

/-- `getText()`: concatenate `chunk.choices[0].delta.content` over the whole
stream, skipping falsy contents. -/
def getText (chunks : List JStr) : JStr :=
  (decodeChunks chunks).foldl
    (fun acc c =>
      match c.deltaContent with
      | some v => if jsTruthy v then acc ++ jsToString v else acc
      | none => acc) []

/-! ## Error classes (src/errors.js) -/

/-- The concrete class of a thrown library error, for `instanceof` checks. -/
inductive ErrClass where
  | modelPilotError
  | apiError
  | authenticationError
  | rateLimitError
  | invalidRequestError
  | permissionDeniedError
  | notFoundError
  | conflictError
  | unprocessableEntityError
  | internalServerError
deriving DecidableEq, Repr

/-- `e instanceof APIError`: every class of src/errors.js except the base
`ModelPilotError` extends `APIError`. -/
def ErrClass.isAPI : ErrClass → Bool
  | .modelPilotError => false
  | _ => true

/-- The response body attached to an axios HTTP error, as far as the error
classes read it (`data.message`, `data.error.code`, `data.error.param`). -/
structure RespData where
  message : Option String
  errCode : Option String
  errParam : Option String
deriving DecidableEq, Repr

/-- A thrown error of the src/errors.js hierarchy, flattened to its
observable fields. -/
structure MPError where
  cls : ErrClass
  name : String
  typ : String
  message : String
  status : Option Nat
  code : Option String
  param : Option String
deriving DecidableEq, Repr

/-- `new ModelPilotError(message)`. -/
def mkModelPilotError (message : String) : MPError :=
  { cls := .modelPilotError, name := "ModelPilotError", typ := "modelpilot_error"
    message := message, status := none, code := none, param := none }

/-- `new APIError(message, status, response)`. -/
def mkAPIError (message : String) (status : Nat) (response : Option RespData) : MPError :=
  { cls := .apiError, name := "APIError", typ := "api_error"
    message := message, status := some status
    code := response.bind (·.errCode), param := response.bind (·.errParam) }

/-- `new AuthenticationError(message)` (an `APIError` with status 401). -/
def mkAuthenticationError (message : String) : MPError :=
  { mkAPIError message 401 none with
    cls := .authenticationError, name := "AuthenticationError", typ := "authentication_error" }

/-- `new RateLimitError(message)` (an `APIError` with status 429). -/
def mkRateLimitError (message : String) : MPError :=
  { mkAPIError message 429 none with
    cls := .rateLimitError, name := "RateLimitError", typ := "rate_limit_exceeded" }

/-- `new InvalidRequestError(message, param)` (an `APIError` with status 400). -/
def mkInvalidRequestError (message : String) (param : Option String) : MPError :=
  { mkAPIError message 400 none with
    cls := .invalidRequestError, name := "InvalidRequestError", typ := "invalid_request_error"
    param := param }

/-- A value thrown by the library: either a plain JS `Error` (as thrown by
the validators in src/utils.js) or an instance of the src/errors.js classes. -/
inductive Thrown where
  | plain (message : String)
  | mp (e : MPError)
deriving DecidableEq, Repr

/-! ## `ModelPilot._handleError` (src/index.js) -/

/-- The shape of an axios failure: a response with an HTTP status, a request
that got no response at all, or a failure before the request was sent. -/
inductive AxiosError where
  | response (status : Nat) (data : RespData)
  | request
  | setup (message : String)
deriving DecidableEq, Repr

/-- `_handleError`: classify an axios failure into the error taxonomy. -/
def handleError (error : AxiosError) : MPError :=
  match error with
  | .response status data =>
    if status = 401 then mkAuthenticationError (data.message.getD "Invalid API key")
    else if status = 429 then mkRateLimitError (data.message.getD "Rate limit exceeded")
    else if status = 400 then mkAPIError (data.message.getD "Bad request") status (some data)
    else if status = 422 then mkAPIError (data.message.getD "Bad request") status (some data)
    else mkAPIError (data.message.getD "API error") status (some data)
  | .request => mkModelPilotError "Network error: No response received"
  | .setup message => mkModelPilotError ("Request error: " ++ message)

/-! ## `ModelPilot.request` retry loop (src/index.js) -/

/-- The response interceptor: a transport attempt either succeeds or fails,
and failures are classified by `_handleError` before `request` sees them. -/
def attemptResult {α : Type} (transport : Nat → Except AxiosError α) (i : Nat) :
    Except MPError α :=
  match transport i with
  | .ok v => .ok v
  | .error ae => .error (handleError ae)

/-- The no-retry test of the loop:
`error instanceof AuthenticationError || (error instanceof APIError && error.status < 500)`. -/
def noRetry (e : MPError) : Bool :=
  e.cls = .authenticationError ||
    (e.cls.isAPI && (match e.status with | some s => s < 500 | none => false))

/-- The body of `for(let attempt=0;attempt<=this.maxRetries;attempt++)`,
returning the outcome together with the number of attempts actually made.
`remaining = maxRetries - attempt`; backoff sleeps are not modelled.  On the
last allowed attempt (`remaining = 0`) a non-retried error and an exhausted
retry budget coincide: the loop breaks and rethrows the last error. -/
def requestLoop {α : Type} (transport : Nat → Except AxiosError α) :
    Nat → Nat → Except MPError α × Nat
  | attempt, 0 => (attemptResult transport attempt, 1)
  | attempt, r + 1 =>
    match attemptResult transport attempt with
    | .ok v => (.ok v, 1)
    | .error e =>
      if noRetry e then (.error e, 1)
      else
        let rest := requestLoop transport (attempt + 1) r
        (rest.1, rest.2 + 1)

/-- `ModelPilot.request` restricted to its retry behaviour: run the loop from
attempt 0 with `maxRetries` additional attempts allowed. -/
def request {α : Type} (transport : Nat → Except AxiosError α) (maxRetries : Nat) :
    Except MPError α × Nat :=
  requestLoop transport 0 maxRetries

/-- A transport failure is transient in the sense of the retry policy when it
is an HTTP 5xx response or carries no HTTP response at all (network-level and
setup failures, which `_handleError` classifies into the same statusless
generic transport error). -/
def isTransient (ae : AxiosError) : Bool :=
  match ae with
  | .response s _ => 500 ≤ s
  | .request => true
  | .setup _ => true

/-! ## Request data (messages, functions, tools) as `create` receives them -/

/-- A `function_call` object on a message (always truthy when present). -/
structure FunctionCall where
  name : String
  arguments : String
deriving DecidableEq, Repr

/-- One tool call on an assistant message. -/
structure ToolCall where
  id : String
  ctype : String
  funcName : String
  funcArguments : String
deriving DecidableEq, Repr

/-- A message object's fields.  `none` stands for an absent (or `undefined`)
field; a present-but-empty string is `some ""` and is falsy where the source
tests truthiness. -/
structure MessageObj where
  role : Option String
  content : Option String
  function_call : Option FunctionCall
  tool_calls : Option (List ToolCall)
deriving DecidableEq, Repr

/-- An entry of the `messages` array: either not an object (a primitive or
`null`, which `validateMessages` rejects) or a message object. -/
inductive JSMessage where
  | notObject
  | obj (m : MessageObj)
deriving DecidableEq, Repr

/-- The value of the `messages` parameter: absent/falsy, a truthy non-array,
or an array of entries. -/
inductive MessagesVal where
  | missing
  | notArray
  | arr (ms : List JSMessage)
deriving DecidableEq, Repr

/-- A function definition entry. -/
structure FuncDefObj where
  name : Option String
  description : Option String
deriving DecidableEq, Repr

/-- An entry of the `functions` array. -/
inductive JSFunc where
  | notObject
  | obj (f : FuncDefObj)
deriving DecidableEq, Repr

/-- A tool entry's fields.  `tfunction = none` stands for an absent or falsy
`function` property. -/
structure ToolObj where
  ttype : Option String
  tfunction : Option JSFunc
deriving DecidableEq, Repr

/-- An entry of the `tools` array. -/
inductive JSTool where
  | notObject
  | obj (t : ToolObj)
deriving DecidableEq, Repr

/-- A present parameter value that must be an array: either a truthy
non-array value or an actual array. -/
inductive JSArrVal (α : Type) where
  | notArray
  | arr (xs : List α)
deriving DecidableEq, Repr

/-- JS truthiness of an optional string (absent and `""` are falsy). -/
def strTruthy (s : Option String) : Bool :=
  match s with
  | some v => v ≠ ""
  | none => false

/-- JS truthiness of an optional number (absent and `0` are falsy). -/
def numTruthy (q : Option Rat) : Bool :=
  match q with
  | some v => v ≠ 0
  | none => false

/-! ## Validators (src/utils.js) -/

/-- The recognised message roles. -/
def allowedRoles : List String := ["system", "user", "assistant", "function", "tool"]

/-- The per-message checks of `validateMessages`, at a given index. -/
def validateMessage (index : Nat) (msg : JSMessage) : Except Thrown Unit :=
  match msg with
  | .notObject => .error (.plain s!"messages[{index}] must be an object")
  | .obj m =>
    if !strTruthy m.role then
      .error (.plain s!"messages[{index}].role is required")
    else if !allowedRoles.contains (m.role.getD "") then
      .error (.plain
        s!"messages[{index}].role must be one of: system, user, assistant, function, tool")
    else if !strTruthy m.content ∧ m.function_call = none ∧ m.tool_calls = none then
      .error (.plain
        s!"messages[{index}].content is required when role is not function or tool")
    else .ok ()

/-- Check every message in order, tracking the index. -/
def validateMessagesFrom (index : Nat) : List JSMessage → Except Thrown Unit
  | [] => .ok ()
  | m :: ms =>
    match validateMessage index m with
    | .error e => .error e
    | .ok () => validateMessagesFrom (index + 1) ms

/-- `validateMessages` from src/utils.js (throws plain `Error`s). -/
def validateMessages (messages : MessagesVal) : Except Thrown Unit :=
  match messages with
  | .missing => .error (.plain "messages must be an array")
  | .notArray => .error (.plain "messages must be an array")
  | .arr [] => .error (.plain "messages array cannot be empty")
  | .arr ms => validateMessagesFrom 0 ms

/-- The per-entry checks of `validateFunctions`.  The `typeof` checks on
`description` and `parameters` are outside the embedded domain (those fields
are carried as strings when present). -/
def validateFunc (index : Nat) (f : JSFunc) : Except Thrown Unit :=
  match f with
  | .notObject => .error (.plain s!"functions[{index}] must be an object")
  | .obj fd =>
    if !strTruthy fd.name then
      .error (.plain s!"functions[{index}].name is required and must be a string")
    else .ok ()

/-- Check every function definition in order. -/
def validateFunctionsFrom (index : Nat) : List JSFunc → Except Thrown Unit
  | [] => .ok ()
  | f :: fs =>
    match validateFunc index f with
    | .error e => .error e
    | .ok () => validateFunctionsFrom (index + 1) fs

/-- `validateFunctions` from src/utils.js. -/
def validateFunctions (functions : JSArrVal JSFunc) : Except Thrown Unit :=
  match functions with
  | .notArray => .error (.plain "functions must be an array")
  | .arr fs => validateFunctionsFrom 0 fs

/-- The per-entry checks of `validateTools`: a truthy `type` is required, and
when `type === "function"` a truthy `function` must be present and is passed
through `validateFunctions` as the singleton `[tool.function]` (hence its
error, if any, names `functions[0]`). -/
def validateTool (index : Nat) (t : JSTool) : Except Thrown Unit :=
  match t with
  | .notObject => .error (.plain s!"tools[{index}] must be an object")
  | .obj tl =>
    if !strTruthy tl.ttype then
      .error (.plain s!"tools[{index}].type is required")
    else if tl.ttype = some "function" then
      match tl.tfunction with
      | none => .error (.plain s!"tools[{index}].function is required when type is 'function'")
      | some f => validateFunctions (.arr [f])
    else .ok ()

/-- Check every tool in order. -/
def validateToolsFrom (index : Nat) : List JSTool → Except Thrown Unit
  | [] => .ok ()
  | t :: ts =>
    match validateTool index t with
    | .error e => .error e
    | .ok () => validateToolsFrom (index + 1) ts

/-- `validateTools` from src/utils.js. -/
def validateTools (tools : JSArrVal JSTool) : Except Thrown Unit :=
  match tools with
  | .notArray => .error (.plain "tools must be an array")
  | .arr ts => validateToolsFrom 0 ts

/-! ## `ChatCompletions.create` and payload assembly (src/chat.js) -/

/-- The parameters `create` receives.  `none` = the key is absent (or
`undefined`); values irrelevant to validation are carried opaquely. -/
structure Params where
  messages : MessagesVal
  model : Option String
  max_tokens : Option Rat
  temperature : Option Rat
  top_p : Option Rat
  frequency_penalty : Option Rat
  presence_penalty : Option Rat
  stop : Option String
  functions : Option (JSArrVal JSFunc)
  function_call : Option String
  tools : Option (JSArrVal JSTool)
  tool_choice : Option String
  response_format : Option String
  user : Option String
  stream : Option Bool
deriving DecidableEq, Repr

/-- The all-absent parameter record, to build concrete requests from. -/
def emptyParams : Params :=
  { messages := .missing, model := none, max_tokens := none, temperature := none
    top_p := none, frequency_penalty := none, presence_penalty := none, stop := none
    functions := none, function_call := none, tools := none, tool_choice := none
    response_format := none, user := none, stream := none }

/-- The wire payload `create` assembles.  A field holding `none` does not
appear in the JSON body sent over the wire. -/
structure Payload where
  messages : MessagesVal
  routerId : String
  model : Option String
  max_tokens : Option Rat
  temperature : Option Rat
  top_p : Option Rat
  frequency_penalty : Option Rat
  presence_penalty : Option Rat
  stop : Option String
  functions : Option (JSArrVal JSFunc)
  function_call : Option String
  tools : Option (JSArrVal JSTool)
  tool_choice : Option String
  response_format : Option String
  user : Option String
  stream : Option Bool
deriving DecidableEq, Repr

/-- `_buildOptionalParams` plus the required fields: note that `model` is
guarded by truthiness (`if(params.model)`) while every other optional field
is guarded by `!== undefined`. -/
def buildPayload (routerId : String) (params : Params) : Payload :=
  { messages := params.messages
    routerId := routerId
    model := if strTruthy params.model then params.model else none
    max_tokens := params.max_tokens
    temperature := params.temperature
    top_p := params.top_p
    frequency_penalty := params.frequency_penalty
    presence_penalty := params.presence_penalty
    stop := params.stop
    functions := params.functions
    function_call := params.function_call
    tools := params.tools
    tool_choice := params.tool_choice
    response_format := params.response_format
    user := params.user
    stream := params.stream }

/-- Truthiness of the `messages` value (`!params.messages`): arrays are
truthy even when empty. -/
def messagesTruthy (m : MessagesVal) : Bool :=
  match m with
  | .missing => false
  | _ => true

/-- Truthiness of an optional array-valued parameter (`if(params.functions)`,
`if(params.tools)`): absent is falsy, any carried value is truthy. -/
def arrValTruthy {α : Type} (v : Option (JSArrVal α)) : Bool := v.isSome

/-- `ChatCompletions.create` up to the network call: validation in source
order, then payload assembly.  An `.ok` result is the payload that would be
posted to `/router/{routerId}`; an `.error` result is thrown before any
network contact. -/
def create (routerId : String) (params : Params) : Except Thrown Payload :=
  if !messagesTruthy params.messages then
    .error (.mp (mkInvalidRequestError "messages is required" (some "messages")))
  else match validateMessages params.messages with
  | .error e => .error e
  | .ok () =>
    match
      (if arrValTruthy params.functions then
        validateFunctions (params.functions.getD (.arr []))
      else .ok ()) with
    | .error e => .error e
    | .ok () =>
      match
        (if arrValTruthy params.tools then
          validateTools (params.tools.getD (.arr []))
        else .ok ()) with
      | .error e => .error e
      | .ok () =>
        if numTruthy params.max_tokens ∧ params.max_tokens.getD 0 ≤ 0 then
          .error (.mp (mkInvalidRequestError "max_tokens must be a positive number"
            (some "max_tokens")))
        else if numTruthy params.temperature ∧
            (params.temperature.getD 0 < 0 ∨ params.temperature.getD 0 > 2) then
          .error (.mp (mkInvalidRequestError "temperature must be between 0 and 2"
            (some "temperature")))
        else if numTruthy params.top_p ∧
            (params.top_p.getD 0 ≤ 0 ∨ params.top_p.getD 0 > 1) then
          .error (.mp (mkInvalidRequestError "top_p must be between 0 and 1" (some "top_p")))
        else .ok (buildPayload routerId params)

/-! ## Client configuration (`validateConfig`, `ModelPilot` constructor) -/

/-- The configuration object passed to `new ModelPilot(config)`. -/
structure Config where
  apiKey : Option String
  baseURL : Option String
  routerId : Option String
  timeout : Option Rat
  maxRetries : Option Rat
deriving DecidableEq, Repr

/-- `validateConfig` from src/utils.js: note that the range checks are
guarded by truthiness, so `timeout: 0` and `maxRetries: 0` pass untouched. -/
def validateConfig (config : Config) : Except Thrown Config :=
  if !strTruthy config.apiKey then
    .error (.plain "ModelPilot API key is required. Get one at https://modelpilot.co")
  else if numTruthy config.timeout ∧ config.timeout.getD 0 ≤ 0 then
    .error (.plain "timeout must be a positive number")
  else if numTruthy config.maxRetries ∧ config.maxRetries.getD 0 < 0 then
    .error (.plain "maxRetries must be a non-negative number")
  else .ok config

/-- The client state the constructor produces. -/
structure Client where
  apiKey : String
  baseURL : String
  routerId : String
  timeout : Rat
  maxRetries : Rat
deriving DecidableEq, Repr

/-- `x || d` on an optional string. -/
def orDefaultStr (v : Option String) (d : String) : String :=
  if strTruthy v then v.getD d else d

/-- `x || d` on an optional number. -/
def orDefaultNum (v : Option Rat) (d : Rat) : Rat :=
  if numTruthy v then v.getD d else d

/-- The `ModelPilot` constructor: validate the config, fill defaults via
`||`, and reject API keys that do not start with `mp_`. -/
def mkModelPilot (config : Config) : Except Thrown Client :=
  match validateConfig config with
  | .error e => .error e
  | .ok validated =>
    let apiKey := validated.apiKey.getD ""
    if !(apiKey.take 3 = "mp_") then
      .error (.plain
        "Invalid ModelPilot API key format. API key must start with \"mp_\". Get your API key from https://modelpilot.co")
    else
      .ok
        { apiKey := apiKey
          baseURL :=
            orDefaultStr validated.baseURL "https://your-firebase-project.cloudfunctions.net"
          routerId := orDefaultStr validated.routerId "default"
          timeout := orDefaultNum validated.timeout 30000
          maxRetries := orDefaultNum validated.maxRetries 3 }

/-! ## Concrete instances and spec-side definitions used in the theorems -/

/-- Did an `Except` computation succeed? -/
def exceptOk {ε α : Type} : Except ε α → Bool
  | .ok _ => true
  | .error _ => false

/-- The valid message `{role:'user', content:'Hello!'}` of the test suites. -/
def userMsg : JSMessage :=
  .obj { role := some "user", content := some "Hello!", function_call := none, tool_calls := none }

/-- A valid request carrying `top_p: 0`. -/
def paramsTopP0 : Params :=
  { emptyParams with messages := .arr [userMsg], top_p := some 0 }

/-- A valid request carrying `max_tokens: 0`. -/
def paramsMax0 : Params :=
  { emptyParams with messages := .arr [userMsg], max_tokens := some 0 }

/-- A request carrying `top_p: -1`. -/
def paramsTopPNeg : Params :=
  { emptyParams with messages := .arr [userMsg], top_p := some (-1) }

/-- A request whose `messages` is the empty array. -/
def paramsEmptyMessages : Params :=
  { emptyParams with messages := .arr [] }

/-- A request with one message whose role is the unrecognized `'invalid'`. -/
def paramsBadRole : Params :=
  { emptyParams with
    messages := .arr [.obj
      { role := some "invalid", content := some "test", function_call := none
        tool_calls := none }] }

/-- A valid request whose `model` is present but the empty string. -/
def paramsEmptyModel : Params :=
  { emptyParams with messages := .arr [userMsg], model := some "" }

/-- Modelled from the spec (amended wording for the status mapping): the
error class `_handleError` is expected to produce for each failure shape —
401 → Authentication, 429 → RateLimit, every other responded status
(400 and 422 included) → the generic `APIError` class, and any failure
without a response → the statusless base `ModelPilotError` class. -/
def statusKindSpec (error : AxiosError) : ErrClass :=
  match error with
  | .response status _ =>
    if status = 401 then .authenticationError
    else if status = 429 then .rateLimitError
    else .apiError
  | .request => .modelPilotError
  | .setup _ => .modelPilotError

/-- The HTTP status carried by an axios failure, when a response arrived. -/
def axiosStatus (error : AxiosError) : Option Nat :=
  match error with
  | .response status _ => some status
  | _ => none

/-- A concrete error response body. -/
def rdMsg (m : String) : RespData :=
  { message := some m, errCode := none, errParam := none }

/-- A transport failing with HTTP 500 on attempts 0 and 1 and succeeding
with payload `7` from attempt 2 on. -/
def tServer500Twice : Nat → Except AxiosError Nat := fun i =>
  if i < 2 then .error (.response 500 (rdMsg "Server error")) else .ok 7

/-- A transport that always fails with HTTP 401. -/
def tAlways401 : Nat → Except AxiosError Nat := fun _ =>
  .error (.response 401 (rdMsg "Invalid API key"))

/-- A transport that always fails before the request is sent. -/
def tAlwaysSetup : Nat → Except AxiosError Nat := fun _ =>
  .error (.setup "boom")

/-- The first SSE buffer of the stream-reassembly scenario. -/
def inp1 : JStr :=
  "data: \x7b\"choices\":[\x7b\"delta\":\x7b\"content\":\"Hello\"\x7d\x7d]\x7d\n\n".toList

/-- The second SSE buffer of the stream-reassembly scenario. -/
def inp2 : JStr :=
  "data: \x7b\"choices\":[\x7b\"delta\":\x7b\"content\":\" world\"\x7d\x7d]\x7d\n\n".toList

/-- The closing `data: [DONE]` buffer. -/
def inp3 : JStr := "data: [DONE]\n\n".toList

/-- A line that is malformed JSON after the `data: ` tag. -/
def badLine : JStr := "data: \x7b\"choices\": oops".toList

/-- A single well-formed SSE line (no newline), carrying content `"Hello"`. -/
def helloLine : JStr :=
  "data: \x7b\"choices\":[\x7b\"delta\":\x7b\"content\":\"Hello\"\x7d\x7d]\x7d".toList

/-- A single well-formed SSE line (no newline), carrying content `" world"`. -/
def worldLine : JStr :=
  "data: \x7b\"choices\":[\x7b\"delta\":\x7b\"content\":\" world\"\x7d\x7d]\x7d".toList

/-- A configuration with a given `maxRetries` and a well-formed API key. -/
def cfgRetries (n : Rat) : Config :=
  { apiKey := some "mp_k", baseURL := none, routerId := none, timeout := none
    maxRetries := some n }

/-- The client the constructor produces for `cfgRetries 5`. -/
def clientOfFive : Client :=
  { apiKey := "mp_k", baseURL := "https://your-firebase-project.cloudfunctions.net"
    routerId := "default", timeout := 30000, maxRetries := 5 }

/-! # Theorems -/

/-- C1: the claim requires `create` to reject `top_p = 0` and `max_tokens = 0`
with an `InvalidRequest` error naming the parameter (the repository's own test
suite expects exactly this for `top_p: 0`), but the truthiness guards
`params.top_p && …` and `params.max_tokens && …` skip the range check when the
value is `0`: `create` succeeds on both boundary inputs and proceeds to the
network call.  The strictly negative case is rejected as the claim states. -/
theorem create_accepts_zero_top_p_and_max_tokens :
    exceptOk (create "default" paramsTopP0) = true ∧
    exceptOk (create "default" paramsMax0) = true ∧
    create "default" paramsTopPNeg =
      .error (.mp (mkInvalidRequestError "top_p must be between 0 and 1" (some "top_p"))) :=
  ⟨rfl, rfl, rfl⟩

/-- C2: the claim (and the repository's own test expecting
`InvalidRequestError` for `messages: []`) requires every message-validation
failure to be an `InvalidRequest` error carrying the offending parameter
name, but `validateMessages` throws plain `Error`s with no `param` field:
evaluating `create` on an empty `messages` array and on an unrecognized role
produces plain errors, not `InvalidRequestError`s. -/
theorem create_message_errors_are_plain :
    create "default" paramsEmptyMessages = .error (.plain "messages array cannot be empty") ∧
    create "default" paramsBadRole =
      .error (.plain "messages[0].role must be one of: system, user, assistant, function, tool") :=
  ⟨rfl, rfl⟩

/-- C3 (counterexample): the claim states that HTTP 400 and 422 map to the
`InvalidRequest` error kind, but `_handleError` maps them to the generic
`APIError` class (`name = "APIError"`, `type = "api_error"`). -/
theorem handleError_400_422_not_invalidRequest :
    (handleError (.response 400 (rdMsg "oops"))).cls ≠ ErrClass.invalidRequestError ∧
    (handleError (.response 422 (rdMsg "oops"))).cls ≠ ErrClass.invalidRequestError ∧
    (handleError (.response 400 (rdMsg "oops"))).name = "APIError" ∧
    (handleError (.response 400 (rdMsg "oops"))).typ = "api_error" := by
  refine ⟨by decide, by decide, rfl, rfl⟩

/-- C3 (amended): `_handleError` maps 401 to `Authentication`, 429 to
`RateLimit`, and every other responded status — 400 and 422 included — to the
generic `APIError` class carrying that status; a failure with no response at
all (network-level or setup) maps to the statusless base error class. -/
theorem handleError_status_mapping (error : AxiosError) :
    (handleError error).cls = statusKindSpec error ∧
    (handleError error).status = axiosStatus error := by
  cases error with
  | response status data =>
    simp only [handleError, statusKindSpec, axiosStatus]
    split_ifs with h1 h2 h3 h4 <;>
      simp_all [mkAuthenticationError, mkRateLimitError, mkAPIError]
  | request => exact ⟨rfl, rfl⟩
  | setup m => exact ⟨rfl, rfl⟩

/-- C5: feeding the decoder the three SSE buffers of the scenario yields
exactly the chunk with content `"Hello"`, the chunk with content `" world"`,
and the terminal `finish_reason = "stop"` chunk, and `getText` concatenates
to exactly `"Hello world"`. -/
theorem stream_reassembly_scenario :
    decodeChunks [inp1, inp2, inp3] =
      [mkContentChunk (Json.str "Hello".toList),
       mkContentChunk (Json.str " world".toList),
       terminalChunk] ∧
    getText [inp1, inp2, inp3] = "Hello world".toList :=
  ⟨rfl, rfl⟩

/-- C10: `validateConfig` accepts `maxRetries: 0` (the truthiness guard skips
the range check), and the constructor's `maxRetries || 3` turns a configured
`0` into the default `3`; any other accepted value `n` is kept. -/
theorem maxRetries_zero_falls_back_to_default :
    (∀ (config : Config) (n : Rat) (client : Client),
        config.maxRetries = some n →
        mkModelPilot config = .ok client →
        client.maxRetries = if n = 0 then 3 else n) ∧
    mkModelPilot (cfgRetries 0) =
      .ok { clientOfFive with maxRetries := 3 } := by
  constructor
  · intro config n client hn hok
    unfold mkModelPilot validateConfig at hok
    split_ifs at hok <;> simp_all [orDefaultNum, numTruthy] <;>
      split_ifs at hok <;> simp_all <;> subst hok <;> simp
  · rfl

/-- C10 witness: instantiating at a configured `maxRetries = 5`. -/
theorem maxRetries_zero_falls_back_to_default_witness :
    clientOfFive.maxRetries = if (5 : Rat) = 0 then 3 else 5 :=
  maxRetries_zero_falls_back_to_default.1 (cfgRetries 5) 5 clientOfFive rfl rfl

/-- The loop's no-retry test, applied to a classified failure, is exactly the
complement of transience of the raw failure. -/
theorem noRetry_handleError (ae : AxiosError) : noRetry (handleError ae) = !isTransient ae := by
  cases ae with
  | response status data =>
    by_cases h5 : 500 ≤ status
    · simp only [handleError, isTransient]
      split_ifs with h1 h2 h3 h4 <;>
        simp_all [noRetry, mkAuthenticationError, mkRateLimitError, mkAPIError,
          ErrClass.isAPI]
    · simp only [handleError, isTransient]
      split_ifs with h1 h2 h3 h4 <;>
        simp_all [noRetry, mkAuthenticationError, mkRateLimitError, mkAPIError,
          ErrClass.isAPI]
  | request =>
    simp [handleError, noRetry, mkModelPilotError, ErrClass.isAPI, isTransient]
  | setup m =>
    simp [handleError, noRetry, mkModelPilotError, ErrClass.isAPI, isTransient]

/-- Unfolding: the loop on its last allowed attempt. -/
theorem requestLoop_zero {α : Type} (t : Nat → Except AxiosError α) (attempt : Nat) :
    requestLoop t attempt 0 = (attemptResult t attempt, 1) := rfl

/-- Unfolding: a successful attempt ends the loop. -/
theorem requestLoop_succ_ok {α : Type} (t : Nat → Except AxiosError α)
    (attempt r : Nat) (v : α) (h : attemptResult t attempt = .ok v) :
    requestLoop t attempt (r + 1) = (.ok v, 1) := by
  simp [requestLoop, h]

/-- Unfolding: a non-retried failure is rethrown immediately. -/
theorem requestLoop_succ_noRetry {α : Type} (t : Nat → Except AxiosError α)
    (attempt r : Nat) (e : MPError) (h : attemptResult t attempt = .error e)
    (hnr : noRetry e = true) :
    requestLoop t attempt (r + 1) = (.error e, 1) := by
  simp [requestLoop, h, hnr]

/-- Unfolding: a retried failure defers to the next attempt. -/
theorem requestLoop_succ_retry {α : Type} (t : Nat → Except AxiosError α)
    (attempt r : Nat) (e : MPError) (h : attemptResult t attempt = .error e)
    (hnr : noRetry e = false) :
    requestLoop t attempt (r + 1) =
      ((requestLoop t (attempt + 1) r).1, (requestLoop t (attempt + 1) r).2 + 1) := by
  simp [requestLoop, h, hnr]

/-- The loop makes at least one and at most `remaining + 1` attempts. -/
theorem requestLoop_count_le {α : Type} (t : Nat → Except AxiosError α) :
    ∀ (remaining attempt : Nat),
      1 ≤ (requestLoop t attempt remaining).2 ∧
      (requestLoop t attempt remaining).2 ≤ remaining + 1 := by
  intro remaining
  induction remaining with
  | zero => intro attempt; simp [requestLoop_zero]
  | succ r ih =>
    intro attempt
    cases hat : attemptResult t attempt with
    | ok v => rw [requestLoop_succ_ok t attempt r v hat]; simp
    | error e =>
      cases hnr : noRetry e with
      | true => rw [requestLoop_succ_noRetry t attempt r e hat hnr]; simp
      | false =>
        rw [requestLoop_succ_retry t attempt r e hat hnr]
        have := ih (attempt + 1)
        simp only
        omega

/-- Every attempt that was followed by a further attempt had failed with a
transient error. -/
theorem requestLoop_retried_transient {α : Type} (t : Nat → Except AxiosError α) :
    ∀ (remaining attempt j : Nat),
      j + 1 < (requestLoop t attempt remaining).2 →
      ∃ ae, t (attempt + j) = .error ae ∧ isTransient ae = true := by
  intro remaining
  induction remaining with
  | zero => intro attempt j h; simp [requestLoop_zero] at h
  | succ r ih =>
    intro attempt j h
    cases hat : attemptResult t attempt with
    | ok v => rw [requestLoop_succ_ok t attempt r v hat] at h; simp at h
    | error e =>
      cases hnr : noRetry e with
      | true => rw [requestLoop_succ_noRetry t attempt r e hat hnr] at h; simp at h
      | false =>
        rw [requestLoop_succ_retry t attempt r e hat hnr] at h
        simp only at h
        cases j with
        | zero =>
          cases hta : t attempt with
          | ok v => simp [attemptResult, hta] at hat
          | error ae =>
            have he : e = handleError ae := by
              simp [attemptResult, hta] at hat
              exact hat.symm
            refine ⟨ae, by simpa using hta, ?_⟩
            rw [he, noRetry_handleError] at hnr
            revert hnr; cases isTransient ae <;> simp
        | succ j' =>
          have hj : j' + 1 < (requestLoop t (attempt + 1) r).2 := by omega
          obtain ⟨ae, h1, h2⟩ := ih (attempt + 1) j' hj
          exact ⟨ae, by rw [show attempt + (j' + 1) = attempt + 1 + j' by omega]; exact h1, h2⟩

/-- When every allowed attempt fails transiently, the loop exhausts its whole
budget and rethrows the classification of the last failure. -/
theorem requestLoop_all_transient {α : Type} (t : Nat → Except AxiosError α) :
    ∀ (remaining attempt : Nat),
      (∀ j, j ≤ remaining → ∃ ae, t (attempt + j) = .error ae ∧ isTransient ae = true) →
      ∃ ae, t (attempt + remaining) = .error ae ∧
        requestLoop t attempt remaining = (.error (handleError ae), remaining + 1) := by
  intro remaining
  induction remaining with
  | zero =>
    intro attempt h
    obtain ⟨ae, hae, _⟩ := h 0 (Nat.le_refl 0)
    rw [Nat.add_zero] at hae
    exact ⟨ae, by simpa using hae, by simp [requestLoop_zero, attemptResult, hae]⟩
  | succ r ih =>
    intro attempt h
    obtain ⟨ae0, hae0, htr0⟩ := h 0 (Nat.zero_le _)
    rw [Nat.add_zero] at hae0
    have hat : attemptResult t attempt = .error (handleError ae0) := by
      simp [attemptResult, hae0]
    have hnr : noRetry (handleError ae0) = false := by
      rw [noRetry_handleError, htr0]; rfl
    obtain ⟨ae, hae, hloop⟩ := ih (attempt + 1)
      (fun j hj => by
        obtain ⟨ae', h1, h2⟩ := h (j + 1) (by omega)
        exact ⟨ae', by rw [show attempt + 1 + j = attempt + (j + 1) by omega]; exact h1, h2⟩)
    refine ⟨ae, by rw [show attempt + (r + 1) = attempt + 1 + r by omega]; exact hae, ?_⟩
    rw [requestLoop_succ_retry t attempt r (handleError ae0) hat hnr, hloop]

/-- C4: with the default `maxRetries = 3`, a transport failing with HTTP 500
on exactly the first two attempts and succeeding on the third makes `request`
return the success after exactly 3 attempts; a transport always failing with
HTTP 401 makes exactly 1 attempt and propagates the `Authentication` error;
in general between 1 and `maxRetries + 1` attempts are made, an attempt is
followed by another one only when it failed with an HTTP 5xx response or with
no response at all (network-level or pre-send failures, which classify to the
same statusless transport error), and when every attempt fails that way the
classification of the last failure is raised. -/
theorem retry_policy :
    (∀ (t : Nat → Except AxiosError Nat) (v : Nat),
        t 0 = .error (.response 500 (rdMsg "Server error")) →
        t 1 = .error (.response 500 (rdMsg "Server error")) →
        t 2 = .ok v →
        request t 3 = (.ok v, 3)) ∧
    (∀ (t : Nat → Except AxiosError Nat) (d : RespData),
        (∀ i, t i = .error (.response 401 d)) →
        request t 3 =
          (.error (mkAuthenticationError (d.message.getD "Invalid API key")), 1)) ∧
    (∀ (t : Nat → Except AxiosError Nat) (n : Nat),
        1 ≤ (request t n).2 ∧ (request t n).2 ≤ n + 1) ∧
    (∀ (t : Nat → Except AxiosError Nat) (n i : Nat),
        i + 1 < (request t n).2 →
        ∃ ae, t i = .error ae ∧ isTransient ae = true) ∧
    (∀ (t : Nat → Except AxiosError Nat) (n : Nat),
        (∀ i, i ≤ n → ∃ ae, t i = .error ae ∧ isTransient ae = true) →
        ∃ ae, t n = .error ae ∧ request t n = (.error (handleError ae), n + 1)) := by
  refine ⟨?_, ?_, ?_, ?_, ?_⟩
  · intro t v h0 h1 h2
    have e0 : attemptResult t 0 = .error (handleError (.response 500 (rdMsg "Server error"))) := by
      simp [attemptResult, h0]
    have e1 : attemptResult t 1 = .error (handleError (.response 500 (rdMsg "Server error"))) := by
      simp [attemptResult, h1]
    have e2 : attemptResult t 2 = .ok v := by simp [attemptResult, h2]
    have hnr : noRetry (handleError (.response 500 (rdMsg "Server error"))) = false := by decide
    unfold request
    rw [requestLoop_succ_retry t 0 2 _ e0 hnr,
        requestLoop_succ_retry t 1 1 _ e1 hnr,
        requestLoop_succ_ok t 2 0 v e2]
  · intro t d h
    have e0 : attemptResult t 0 = .error (handleError (.response 401 d)) := by
      simp [attemptResult, h 0]
    have hnr : noRetry (handleError (.response 401 d)) = true := by
      simp [handleError, noRetry, mkAuthenticationError]
    unfold request
    rw [requestLoop_succ_noRetry t 0 2 _ e0 hnr]
    simp [handleError]
  · intro t n
    exact requestLoop_count_le t n 0
  · intro t n i h
    have := requestLoop_retried_transient t n 0 i h
    simpa using this
  · intro t n h
    have := requestLoop_all_transient t n 0 (fun j hj => by simpa using h j hj)
    simpa using this

/-- C4 witness: the three default-configuration scenarios instantiated with
concrete transports. -/
theorem retry_policy_witness :
    request tServer500Twice 3 = (.ok 7, 3) ∧
    request tAlways401 3 =
      (.error (mkAuthenticationError (((rdMsg "Invalid API key")).message.getD
        "Invalid API key")), 1) ∧
    (1 ≤ (request tAlwaysSetup 3).2 ∧ (request tAlwaysSetup 3).2 ≤ 3 + 1) ∧
    (∃ ae, tAlwaysSetup 3 = .error ae ∧
      request tAlwaysSetup 3 = (.error (handleError ae), 3 + 1)) :=
  ⟨retry_policy.1 tServer500Twice 7 rfl rfl rfl,
   retry_policy.2.1 tAlways401 (rdMsg "Invalid API key") (fun _ => rfl),
   retry_policy.2.2.1 tAlwaysSetup 3,
   retry_policy.2.2.2.2 tAlwaysSetup 3 (fun _ _ => ⟨.setup "boom", rfl, rfl⟩)⟩

/-- Unfolding: a newline closes the current line. -/
theorem splitLines_cons_nl (l : JStr) :
    splitLines ('\n' :: l) = ([] :: (splitLines l).1, (splitLines l).2) := by
  simp [splitLines]

/-- Unfolding: a non-newline character joins the first piece of the split. -/
theorem splitLines_cons_ne (c : Char) (l : JStr) (hc : c ≠ '\n') :
    splitLines (c :: l) =
      (match splitLines l with
       | (hd :: tl, rest) => ((c :: hd) :: tl, rest)
       | ([], rest) => ([], c :: rest)) := by
  simp [splitLines, hc]

/-- Splitting a concatenation into lines: the complete lines of `xs` come
first, then the retained fragment of `xs` is prepended to `ys` and split
further.  This is the streaming property behind the buffer discipline. -/
theorem splitLines_append (xs ys : JStr) :
    splitLines (xs ++ ys) =
      ((splitLines xs).1 ++ (splitLines ((splitLines xs).2 ++ ys)).1,
       (splitLines ((splitLines xs).2 ++ ys)).2) := by
  induction xs with
  | nil => simp [splitLines]
  | cons c cs ih =>
    by_cases hc : c = '\n'
    · subst hc
      rw [List.cons_append, splitLines_cons_nl, splitLines_cons_nl, ih]
      simp
    · rcases hsc : splitLines cs with ⟨ls1, r1⟩
      cases ls1 with
      | nil =>
        rcases hA : splitLines (r1 ++ ys) with ⟨ls2, r2⟩
        rw [List.cons_append, splitLines_cons_ne c (cs ++ ys) hc, ih, hsc,
            splitLines_cons_ne c cs hc, hsc]
        cases ls2 with
        | nil =>
          simp only [hA, List.nil_append]
          rw [List.cons_append, splitLines_cons_ne c (r1 ++ ys) hc, hA]
        | cons l2 ls2' =>
          simp only [hA, List.nil_append]
          rw [List.cons_append, splitLines_cons_ne c (r1 ++ ys) hc, hA]
      | cons l1 ls1' =>
        rcases hA : splitLines (r1 ++ ys) with ⟨ls2, r2⟩
        rw [List.cons_append, splitLines_cons_ne c (cs ++ ys) hc, ih, hsc,
            splitLines_cons_ne c cs hc, hsc]
        simp [hA]

/-- Processing one chunk and then another is the same as processing their
concatenation: the retained-buffer discipline loses nothing at boundaries. -/
theorem decodeStep_append (st : JStr × List Json) (c1 c2 : JStr) :
    decodeStep (decodeStep st c1) c2 = decodeStep st (c1 ++ c2) := by
  unfold decodeStep
  rw [show st.1 ++ (c1 ++ c2) = (st.1 ++ c1) ++ c2 from (List.append_assoc _ _ _).symm,
      splitLines_append (st.1 ++ c1) c2]
  simp [List.filterMap_append, List.append_assoc]

/-- Folding the decoder step over a non-empty chunk list equals one step on
the concatenation. -/
theorem foldl_decodeStep_ne (cs : List JStr) :
    ∀ (st : JStr × List Json), cs ≠ [] →
      cs.foldl decodeStep st = decodeStep st cs.flatten := by
  induction cs with
  | nil => intro st h; exact absurd rfl h
  | cons c cs ih =>
    intro st _
    rcases cs with _ | ⟨c', cs'⟩
    · simp [List.flatten]
    · rw [List.foldl_cons, ih (decodeStep st c) (by simp), decodeStep_append]
      rfl

/-- The texts a chunked input yields are those of its concatenation. -/
theorem decodeTexts_join (chunks : List JStr) :
    decodeTexts chunks = decodeTexts [chunks.flatten] := by
  unfold decodeTexts
  cases hc : chunks with
  | nil => simp [List.flatten, decodeStep, splitLines]
  | cons c cs =>
    rw [← hc, foldl_decodeStep_ne chunks ([], []) (by simp [hc])]
    simp

/-- C6: the decoder is invariant under re-chunking — two chunkings of the
same character sequence yield identical chunk sequences (hence the identical
terminal chunk) and identical concatenated text. -/
theorem decode_rechunk_invariant (chs1 chs2 : List JStr) (h : chs1.flatten = chs2.flatten) :
    decodeChunks chs1 = decodeChunks chs2 ∧ getText chs1 = getText chs2 := by
  have ht : decodeTexts chs1 = decodeTexts chs2 := by
    rw [decodeTexts_join chs1, decodeTexts_join chs2, h]
  have hch : decodeChunks chs1 = decodeChunks chs2 := by
    unfold decodeChunks; rw [ht]
  exact ⟨hch, by unfold getText; rw [hch]⟩

/-- C6 witness: splitting the first scenario buffer mid-JSON-object. -/
theorem decode_rechunk_invariant_witness :
    decodeChunks ["data: \x7b\"choi".toList, "ces\":[\x7b\"delta\":\x7b\"content\":\"Hello\"\x7d\x7d]\x7d\n".toList] =
      decodeChunks ["data: \x7b\"choices\":[\x7b\"delta\":\x7b\"content\":\"Hello\"\x7d\x7d]\x7d\n".toList] ∧
    getText ["data: \x7b\"choi".toList, "ces\":[\x7b\"delta\":\x7b\"content\":\"Hello\"\x7d\x7d]\x7d\n".toList] =
      getText ["data: \x7b\"choices\":[\x7b\"delta\":\x7b\"content\":\"Hello\"\x7d\x7d]\x7d\n".toList] :=
  decode_rechunk_invariant
    ["data: \x7b\"choi".toList, "ces\":[\x7b\"delta\":\x7b\"content\":\"Hello\"\x7d\x7d]\x7d\n".toList]
    ["data: \x7b\"choices\":[\x7b\"delta\":\x7b\"content\":\"Hello\"\x7d\x7d]\x7d\n".toList]
    rfl

/-- Whatever the input, the chunk sequence ends with the terminal chunk. -/
theorem decodeChunks_getLast (chunks : List JStr) :
    (decodeChunks chunks).getLast? = some terminalChunk := by
  unfold decodeChunks
  rw [List.getLast?_concat]

/-- C7: for every input stream the produced chunk sequence is finite, ends
with exactly one terminal chunk (`delta = {}`, `finish_reason = "stop"`,
`index = 0`), and every chunk before it has `finish_reason = null` and the
object tag `chat.completion.chunk`. -/
theorem decoder_terminal_shape (chunks : List JStr) :
    (decodeChunks chunks).getLast? = some terminalChunk ∧
    (∀ c ∈ (decodeChunks chunks).dropLast,
        c.finishReason = none ∧ c.object = "chat.completion.chunk".toList ∧
        c ≠ terminalChunk) ∧
    terminalChunk.deltaContent = none ∧ terminalChunk.index = 0 ∧
    terminalChunk.finishReason = some ("stop".toList) := by
  refine ⟨decodeChunks_getLast chunks, ?_, rfl, rfl, rfl⟩
  intro c hc
  unfold decodeChunks at hc
  rw [List.dropLast_concat] at hc
  obtain ⟨t, _, rfl⟩ := List.mem_map.mp hc
  refine ⟨rfl, rfl, ?_⟩
  intro h
  have := congrArg StreamChunk.finishReason h
  simp [mkContentChunk, terminalChunk] at this

/-- C7 witness: instantiated on the first scenario buffer; the single content
chunk before the terminal one has a null finish reason and differs from the
terminal chunk. -/
theorem decoder_terminal_shape_witness :
    (mkContentChunk (Json.str "Hello".toList)).finishReason = none ∧
    mkContentChunk (Json.str "Hello".toList) ≠ terminalChunk ∧
    (decodeChunks [inp1]).getLast? = some terminalChunk := by
  have h := decoder_terminal_shape [inp1]
  have hm : mkContentChunk (Json.str "Hello".toList) ∈ (decodeChunks [inp1]).dropLast := by
    rw [show (decodeChunks [inp1]).dropLast = [mkContentChunk (Json.str "Hello".toList)]
      from rfl]
    exact List.mem_singleton_self _
  exact ⟨(h.2.1 _ hm).1, (h.2.1 _ hm).2.2, h.1⟩

/-- C9: a line whose JSON fails to parse is skipped silently — the decoder is
a total function whose yields are the per-line contributions of the input's
lines, a malformed line contributes nothing while every other line's
contribution is unchanged, and the terminal stop chunk is still yielded. -/
theorem malformed_line_robustness :
    (∀ input : JStr,
        decodeTexts [input] =
          ((splitLines input).1 ++ [(splitLines input).2]).filterMap processLine) ∧
    (∀ line : JStr, parseJson (dropDataTag line) = none → processLine line = none) ∧
    (∀ (pre post : List JStr) (bad : JStr), processLine bad = none →
        (pre ++ bad :: post).filterMap processLine =
          pre.filterMap processLine ++ post.filterMap processLine) ∧
    (∀ chunks : List JStr, (decodeChunks chunks).getLast? = some terminalChunk) := by
  refine ⟨?_, ?_, ?_, decodeChunks_getLast⟩
  · intro input
    unfold decodeTexts
    simp only [List.foldl_cons, List.foldl_nil]
    unfold decodeStep
    simp only [List.nil_append, List.filterMap_append]
    cases hp : processLine (splitLines input).2 <;>
      simp [List.filterMap_cons, hp]
  · intro line h
    unfold processLine extractStreamingText
    split_ifs <;> simp [h]
  · intro pre post bad h
    simp [List.filterMap_append, List.filterMap_cons, h]

/-- C9 witness: a concrete malformed line between two well-formed lines. -/
theorem malformed_line_robustness_witness :
    processLine badLine = none ∧
    ([helloLine] ++ badLine :: [worldLine]).filterMap processLine =
      [helloLine].filterMap processLine ++ [worldLine].filterMap processLine ∧
    (decodeChunks [badLine]).getLast? = some terminalChunk := by
  have h2 := malformed_line_robustness.2.1 badLine (by rfl)
  exact ⟨h2, malformed_line_robustness.2.2.1 [helloLine] [worldLine] badLine h2,
    malformed_line_robustness.2.2.2 [badLine]⟩

/-- C8 (counterexample): a valid request with `model` present as the empty
string — the claim requires the field to appear in the payload whenever it is
present on the input, but the truthiness guard `if(params.model)` drops it. -/
theorem create_drops_present_empty_model :
    create "default" paramsEmptyModel = .ok (buildPayload "default" paramsEmptyModel) ∧
    (buildPayload "default" paramsEmptyModel).model = none ∧
    paramsEmptyModel.model = some "" :=
  ⟨rfl, rfl, rfl⟩

/-- C8 (amended): a successful `create` sends exactly the payload whose
`messages` and router identifier are always present, whose other optional
fields appear if and only if they are present on the input and pass through
unmodified — except `model`, which appears if and only if it is truthy (a
present-but-empty `model` string is dropped); a client constructed without a
configured router identifier carries the `"default"` identifier. -/
theorem payload_passthrough :
    (∀ (routerId : String) (params : Params) (pl : Payload),
        create routerId params = .ok pl →
        pl.messages = params.messages ∧ pl.routerId = routerId ∧
        pl.max_tokens = params.max_tokens ∧ pl.temperature = params.temperature ∧
        pl.top_p = params.top_p ∧ pl.frequency_penalty = params.frequency_penalty ∧
        pl.presence_penalty = params.presence_penalty ∧ pl.stop = params.stop ∧
        pl.functions = params.functions ∧ pl.function_call = params.function_call ∧
        pl.tools = params.tools ∧ pl.tool_choice = params.tool_choice ∧
        pl.response_format = params.response_format ∧ pl.user = params.user ∧
        pl.stream = params.stream ∧
        pl.model = (if strTruthy params.model then params.model else none)) ∧
    (∀ (config : Config) (client : Client),
        mkModelPilot config = .ok client → config.routerId = none →
        client.routerId = "default") := by
  constructor
  · intro routerId params pl h
    have hpl : pl = buildPayload routerId params := by
      unfold create at h
      iterate 8 (all_goals (try split at h))
      all_goals simp_all
    subst hpl
    simp [buildPayload]
  · intro config client h hr
    unfold mkModelPilot at h
    cases hv : validateConfig config with
    | error e => rw [hv] at h; simp at h
    | ok validated =>
      have hvc : validated = config := by
        unfold validateConfig at hv
        split_ifs at hv <;> simp_all
      rw [hv] at h
      subst hvc
      simp only at h
      split_ifs at h <;> simp_all [orDefaultStr, strTruthy] <;> subst h <;> simp

/-- C8 witness: the pass-through applied to a concrete valid request, and the
router default applied to a concrete configuration without a router id. -/
theorem payload_passthrough_witness :
    (buildPayload "default" paramsTopP0).top_p = paramsTopP0.top_p ∧
    clientOfFive.routerId = "default" :=
  ⟨(payload_passthrough.1 "default" paramsTopP0 (buildPayload "default" paramsTopP0)
      rfl).2.2.2.2.1,
   payload_passthrough.2 (cfgRetries 5) clientOfFive rfl rfl⟩

end MP
